import Mathlib

/-!
Formal model of the text-to-ISL conversion service of this repository.

Two deployments implement the conversion:
- `Backend` models `src/backend/server.py` (FastAPI app with pydantic
  length validation and HTTP 400 error paths);
- `Legacy` models `src/server.py` (earlier FastAPI app with no length
  validation and no error paths).

Strings are modelled as `List Char`.  The Python primitives the code
uses are modelled on their ASCII fragment:
- `str.lower` as pointwise `toLowerAscii` (Python also lowers non-ASCII
  letters; the service's tables are pure ASCII, so the difference is
  confined to characters that every lookup skips);
- `str.strip` as `pyStrip` (default whitespace: codes 9-13 and 32);
- membership in `string.punctuation` as `isPunct` (`string.punctuation`
  is exactly the ASCII codes 33-47, 58-64, 91-96 and 123-126).
-/

/-- Membership in Python's `string.punctuation` (ASCII ranges 33-47,
58-64, 91-96, 123-126). -/
def isPunct (c : Char) : Bool :=
  (33 ≤ c.toNat && c.toNat ≤ 47) || (58 ≤ c.toNat && c.toNat ≤ 64) ||
  (91 ≤ c.toNat && c.toNat ≤ 96) || (123 ≤ c.toNat && c.toNat ≤ 126)

/-- Whitespace removed by Python's default `str.strip` (ASCII fragment):
space (32) and the control characters 9-13. -/
def isPySpace (c : Char) : Bool :=
  c.toNat == 32 || (9 ≤ c.toNat && c.toNat ≤ 13)

/-- ASCII lowercasing of one character, as `str.lower` acts on ASCII. -/
def toLowerAscii (c : Char) : Char :=
  if 65 ≤ c.toNat && c.toNat ≤ 90 then Char.ofNat (c.toNat + 32) else c

/-- Model of `text.lower()` on the ASCII fragment. -/
def pyLower (s : List Char) : List Char := s.map toLowerAscii

/-- Model of `text.strip()`: drop leading and trailing whitespace. -/
def pyStrip (s : List Char) : List Char :=
  ((s.dropWhile isPySpace).reverse.dropWhile isPySpace).reverse

/-- Model of `''.join([c for c in text if c not in string.punctuation])`. -/
def removePunct (s : List Char) : List Char :=
  s.filter (fun c => !(isPunct c))

/-- The response produced by either deployment's `process_text`:
a `GifResponse`, a `SequenceResponse`, or a raised `HTTPException`
carrying a status code and a detail string. -/
inductive Result where
  | gif (src : List Char) (alt : List Char)
  | seq (data : List (List Char)) (originalText : List Char)
  | error (status : Nat) (detail : List Char)
  deriving DecidableEq

/-- Whether a `Result` is the raised-exception case. -/
def Result.isError : Result → Bool
  | .error _ _ => true
  | _ => false

/-- Whether a `Result` is a gif response. -/
def Result.isGif : Result → Bool
  | .gif _ _ => true
  | _ => false

/-- The gif asset path the code interpolates: `/static/gifs/<text>.gif`. -/
def gifSrc (phrase : List Char) : List Char :=
  "/static/gifs/".toList ++ phrase ++ ".gif".toList

/-- The letter asset path the code interpolates: `/static/letters/<c>.jpg`. -/
def letterSrc (c : Char) : List Char :=
  "/static/letters/".toList ++ [c] ++ ".jpg".toList

namespace Backend

/-- `ISL_PHRASES` of `src/backend/server.py`, transcribed verbatim. -/
def ISL_PHRASES : List (List Char) :=
  ["any questions".toList, "are you angry".toList, "are you busy".toList,
   "are you hungry".toList, "are you sick".toList, "be careful".toList,
   "can we meet tomorrow".toList, "did you book tickets".toList,
   "did you finish homework".toList, "do you go to office".toList,
   "do you have money".toList, "do you want something to drink".toList,
   "do you want tea or coffee".toList, "do you watch TV".toList,
   "dont worry".toList, "flower is beautiful".toList,
   "good afternoon".toList, "good evening".toList, "good morning".toList,
   "good night".toList, "good question".toList, "had your lunch".toList,
   "happy journey".toList, "hello what is your name".toList,
   "how many people are there in your family".toList, "i am a clerk".toList,
   "i am bore doing nothing".toList, "i am fine".toList, "i am sorry".toList,
   "i am thinking".toList, "i am tired".toList,
   "i dont understand anything".toList, "i go to a theatre".toList,
   "i love to shop".toList, "i had to say something but i forgot".toList,
   "i have headache".toList, "i like pink colour".toList,
   "i live in nagpur".toList, "lets go for lunch".toList,
   "my mother is a homemaker".toList, "my name is john".toList,
   "nice to meet you".toList, "no smoking please".toList,
   "open the door".toList, "please call me later".toList,
   "please clean the room".toList, "please give me your pen".toList,
   "please use dustbin dont throw garbage".toList,
   "please wait for sometime".toList, "shall I help you".toList,
   "shall we go together tommorow".toList,
   "sign language interpreter".toList, "sit down".toList,
   "stand up".toList, "take care".toList, "there was traffic jam".toList,
   "wait I am thinking".toList, "what are you doing".toList,
   "what is the problem".toList, "what is todays date".toList,
   "what is your father do".toList, "what is your job".toList,
   "what is your mobile number".toList, "what is your name".toList,
   "whats up".toList, "when is your interview".toList,
   "when we will go".toList, "where do you stay".toList,
   "where is the bathroom".toList, "where is the police station".toList,
   "you are wrong".toList,
   "address".toList, "agra".toList, "ahemdabad".toList, "all".toList,
   "april".toList, "assam".toList, "august".toList, "australia".toList,
   "badoda".toList, "banana".toList, "banaras".toList, "banglore".toList,
   "bihar".toList, "bridge".toList, "cat".toList, "chandigarh".toList,
   "chennai".toList, "christmas".toList, "church".toList, "clinic".toList,
   "coconut".toList, "crocodile".toList, "dasara".toList, "deaf".toList,
   "december".toList, "deer".toList, "delhi".toList, "dollar".toList,
   "duck".toList, "febuary".toList, "friday".toList, "fruits".toList,
   "glass".toList, "grapes".toList, "gujrat".toList, "hello".toList,
   "hindu".toList, "hyderabad".toList, "india".toList, "january".toList,
   "jesus".toList, "job".toList, "july".toList, "june".toList,
   "karnataka".toList, "kerala".toList, "krishna".toList, "litre".toList,
   "mango".toList, "may".toList, "mile".toList, "monday".toList,
   "mumbai".toList, "museum".toList, "muslim".toList, "nagpur".toList,
   "october".toList, "orange".toList, "pakistan".toList, "pass".toList,
   "police station".toList, "post office".toList, "pune".toList,
   "punjab".toList, "rajasthan".toList, "ram".toList, "restaurant".toList,
   "saturday".toList, "september".toList, "shop".toList, "sleep".toList,
   "southafrica".toList, "story".toList, "sunday".toList,
   "tamil nadu".toList, "temperature".toList, "temple".toList,
   "thank".toList, "thursday".toList, "toilet".toList, "tomato".toList,
   "town".toList, "tuesday".toList, "usa".toList, "village".toList,
   "voice".toList, "wednesday".toList, "weight".toList, "welcome".toList,
   "hi".toList, "yourself".toList]

/-- `AVAILABLE_LETTERS = list('abcdefghijklmnopqrstuvwxyz')`. -/
def AVAILABLE_LETTERS : List Char := "abcdefghijklmnopqrstuvwxyz".toList

/-- The normalization inlined at the top of the backend `process_text`:
`input_data.text.lower().strip()` followed by punctuation removal.
Note the order: strip happens BEFORE punctuation removal. -/
def normalize (s : List Char) : List Char := removePunct (pyStrip (pyLower s))

/-- The spell-out loop of the backend `process_text`: one letter image
per character found in `AVAILABLE_LETTERS`, other characters skipped. -/
def spellOut (s : List Char) : List (List Char) :=
  s.filterMap (fun c => if AVAILABLE_LETTERS.contains c then some (letterSrc c) else none)

/-- The body of the backend `/process` handler.  The handler binds
`text` once to the normalized input and `images` once to the spell-out
list; both are inlined here. -/
def process_text (input : List Char) : Result :=
  if normalize input = [] then
    .error 400 "Text cannot be empty after processing".toList
  else if normalize input ∈ ISL_PHRASES then
    .gif (gifSrc (normalize input)) (normalize input)
  else if spellOut (normalize input) = [] then
    .error 400 "No valid characters found to convert".toList
  else
    .seq (spellOut (normalize input)) (normalize input)

/-- The backend `/process` endpoint including the pydantic `TextInput`
validation `Field(..., min_length=1, max_length=500)`, which FastAPI
applies before the handler body runs (422 on violation). -/
def endpoint (input : List Char) : Result :=
  if 1 ≤ input.length ∧ input.length ≤ 500 then process_text input
  else .error 422 "value error for field text".toList

end Backend

namespace Legacy

/-- `isl_gif` of `src/server.py`, transcribed verbatim.  It lacks the
entries `june`, `thank`, `welcome`, `hi` and `yourself` that the backend
table has. -/
def isl_gif : List (List Char) :=
  ["any questions".toList, "are you angry".toList, "are you busy".toList,
   "are you hungry".toList, "are you sick".toList, "be careful".toList,
   "can we meet tomorrow".toList, "did you book tickets".toList,
   "did you finish homework".toList, "do you go to office".toList,
   "do you have money".toList, "do you want something to drink".toList,
   "do you want tea or coffee".toList, "do you watch TV".toList,
   "dont worry".toList, "flower is beautiful".toList,
   "good afternoon".toList, "good evening".toList, "good morning".toList,
   "good night".toList, "good question".toList, "had your lunch".toList,
   "happy journey".toList, "hello what is your name".toList,
   "how many people are there in your family".toList, "i am a clerk".toList,
   "i am bore doing nothing".toList, "i am fine".toList, "i am sorry".toList,
   "i am thinking".toList, "i am tired".toList,
   "i dont understand anything".toList, "i go to a theatre".toList,
   "i love to shop".toList, "i had to say something but i forgot".toList,
   "i have headache".toList, "i like pink colour".toList,
   "i live in nagpur".toList, "lets go for lunch".toList,
   "my mother is a homemaker".toList, "my name is john".toList,
   "nice to meet you".toList, "no smoking please".toList,
   "open the door".toList, "please call me later".toList,
   "please clean the room".toList, "please give me your pen".toList,
   "please use dustbin dont throw garbage".toList,
   "please wait for sometime".toList, "shall I help you".toList,
   "shall we go together tommorow".toList,
   "sign language interpreter".toList, "sit down".toList,
   "stand up".toList, "take care".toList, "there was traffic jam".toList,
   "wait I am thinking".toList, "what are you doing".toList,
   "what is the problem".toList, "what is todays date".toList,
   "what is your father do".toList, "what is your job".toList,
   "what is your mobile number".toList, "what is your name".toList,
   "whats up".toList, "when is your interview".toList,
   "when we will go".toList, "where do you stay".toList,
   "where is the bathroom".toList, "where is the police station".toList,
   "you are wrong".toList,
   "address".toList, "agra".toList, "ahemdabad".toList, "all".toList,
   "april".toList, "assam".toList, "august".toList, "australia".toList,
   "badoda".toList, "banana".toList, "banaras".toList, "banglore".toList,
   "bihar".toList, "bridge".toList, "cat".toList, "chandigarh".toList,
   "chennai".toList, "christmas".toList, "church".toList, "clinic".toList,
   "coconut".toList, "crocodile".toList, "dasara".toList, "deaf".toList,
   "december".toList, "deer".toList, "delhi".toList, "dollar".toList,
   "duck".toList, "febuary".toList, "friday".toList, "fruits".toList,
   "glass".toList, "grapes".toList, "gujrat".toList, "hello".toList,
   "hindu".toList, "hyderabad".toList, "india".toList, "january".toList,
   "jesus".toList, "job".toList, "july".toList,
   "karnataka".toList, "kerala".toList, "krishna".toList, "litre".toList,
   "mango".toList, "may".toList, "mile".toList, "monday".toList,
   "mumbai".toList, "museum".toList, "muslim".toList, "nagpur".toList,
   "october".toList, "orange".toList, "pakistan".toList, "pass".toList,
   "police station".toList, "post office".toList, "pune".toList,
   "punjab".toList, "rajasthan".toList, "ram".toList, "restaurant".toList,
   "saturday".toList, "september".toList, "shop".toList, "sleep".toList,
   "southafrica".toList, "story".toList, "sunday".toList,
   "tamil nadu".toList, "temperature".toList, "temple".toList,
   "thursday".toList, "toilet".toList, "tomato".toList,
   "town".toList, "tuesday".toList, "usa".toList, "village".toList,
   "voice".toList, "wednesday".toList, "weight".toList]

/-- `arr`, the list of individual characters with letter images. -/
def arr : List Char := "abcdefghijklmnopqrstuvwxyz".toList

/-- The normalization inlined in the legacy `process_text`:
lowercase then punctuation removal.  No strip is performed. -/
def normalize (s : List Char) : List Char := removePunct (pyLower s)

/-- The spell-out loop of the legacy `process_text`. -/
def spellOut (s : List Char) : List (List Char) :=
  s.filterMap (fun c => if arr.contains c then some (letterSrc c) else none)

/-- The body of the legacy `/process` handler.  There is no empty-text
check and no empty-sequence check: if nothing matches, an empty
sequence response is returned. -/
def process_text (input : List Char) : Result :=
  if normalize input ∈ isl_gif then
    .gif (gifSrc (normalize input)) (normalize input)
  else
    .seq (spellOut (normalize input)) (normalize input)

/-- The legacy `/process` endpoint: its `TextInput` model declares
`text: str` with no constraints, so every string reaches the handler. -/
def endpoint (input : List Char) : Result := process_text input

end Legacy

/-- Well-formedness of a phrase-table entry, used to relate the two
normalizations: the entry is non-empty, starts and ends with a
non-whitespace character, contains no punctuation, and contains at
least one character with a letter image. -/
def entryOk (p : List Char) : Bool :=
  (match p.head? with | some c => !(isPySpace c) | none => false) &&
  (match p.getLast? with | some c => !(isPySpace c) | none => false) &&
  p.all (fun c => !(isPunct c)) &&
  p.any (fun c => Backend.AVAILABLE_LETTERS.contains c)

example : Backend.process_text "Hello!".toList =
    .gif "/static/gifs/hello.gif".toList "hello".toList := by decide

example : Legacy.process_text "hi".toList =
    .seq [letterSrc 'h', letterSrc 'i'] "hi".toList := by decide

example : Backend.normalize "a .".toList = "a ".toList := by decide

theorem charOfNat_toNat (n : Nat) (h : n < 55296) : (Char.ofNat n).toNat = n := by
  have hv : n.isValidChar := Or.inl h
  simp [Char.ofNat, hv, Char.ofNatAux, Char.toNat, UInt32.toNat, BitVec.toNat_ofNatLt]

theorem toLowerAscii_not_upper (c : Char) :
    ¬(65 ≤ (toLowerAscii c).toNat ∧ (toLowerAscii c).toNat ≤ 90) := by
  unfold toLowerAscii
  by_cases h : (65 ≤ c.toNat && c.toNat ≤ 90) = true
  · rw [if_pos h]
    simp only [Bool.and_eq_true, decide_eq_true_eq] at h
    rw [charOfNat_toNat (c.toNat + 32) (by omega)]
    omega
  · rw [if_neg h]
    simp only [Bool.and_eq_true, decide_eq_true_eq, not_and, not_le] at h
    omega

theorem toLowerAscii_fix (d : Char) (h : ¬(65 ≤ d.toNat ∧ d.toNat ≤ 90)) :
    toLowerAscii d = d := by
  unfold toLowerAscii
  rw [if_neg]
  simpa using h

theorem toLowerAscii_idem (c : Char) :
    toLowerAscii (toLowerAscii c) = toLowerAscii c :=
  toLowerAscii_fix (toLowerAscii c) (toLowerAscii_not_upper c)

theorem pyLower_idem (s : List Char) : pyLower (pyLower s) = pyLower s := by
  unfold pyLower
  rw [List.map_map]
  refine List.map_congr_left ?_
  intro a _
  simp only [Function.comp_apply]
  exact toLowerAscii_idem a

theorem mem_pyLower_not_upper (s : List Char) (c : Char) (hc : c ∈ pyLower s) :
    ¬(65 ≤ c.toNat ∧ c.toNat ≤ 90) := by
  unfold pyLower at hc
  obtain ⟨x, _, rfl⟩ := List.mem_map.mp hc
  exact toLowerAscii_not_upper x

theorem mem_pyStrip (s : List Char) (c : Char) (hc : c ∈ pyStrip s) : c ∈ s := by
  unfold pyStrip at hc
  rw [List.mem_reverse] at hc
  have h1 := List.Sublist.mem hc (List.dropWhile_sublist isPySpace)
  rw [List.mem_reverse] at h1
  exact List.Sublist.mem h1 (List.dropWhile_sublist isPySpace)

theorem isPySpace_not_punct (c : Char) (h : isPySpace c = true) :
    (!(isPunct c)) = true := by
  unfold isPySpace at h
  unfold isPunct
  simp only [Bool.or_eq_true, Bool.and_eq_true, beq_iff_eq, decide_eq_true_eq] at h
  simp only [Bool.not_eq_true', Bool.or_eq_false_iff, Bool.and_eq_false_iff,
    decide_eq_false_iff_not, not_le]
  omega

theorem dropWhile_eq_self_of_head (w : List Char) (c : Char) (r : List Char)
    (h : removePunct w = c :: r) (hc : isPySpace c = false) :
    w.dropWhile isPySpace = w := by
  cases w with
  | nil => simp [removePunct] at h
  | cons a t =>
    by_cases ha : isPySpace a = true
    · have hnp := isPySpace_not_punct a ha
      unfold removePunct at h
      rw [List.filter_cons, if_pos hnp] at h
      injection h with h1 h2
      rw [← h1, ha] at hc
      exact absurd hc (by simp)
    · rw [List.dropWhile_cons, if_neg ha]

theorem removePunct_reverse (s : List Char) :
    removePunct s.reverse = (removePunct s).reverse :=
  List.filter_reverse _ s

theorem pyStrip_eq_self (w : List Char) (c0 c1 : Char) (p : List Char)
    (hf : removePunct w = p) (hh : p.head? = some c0) (hl : p.getLast? = some c1)
    (hc0 : isPySpace c0 = false) (hc1 : isPySpace c1 = false) :
    pyStrip w = w := by
  obtain ⟨r, hp⟩ : ∃ r, p = c0 :: r := by
    cases p with
    | nil => cases hh
    | cons x xs =>
      injection hh with h1
      exact ⟨xs, by rw [h1]⟩
  have h1 : w.dropWhile isPySpace = w :=
    dropWhile_eq_self_of_head w c0 r (by rw [hf, hp]) hc0
  obtain ⟨r2, hp2⟩ : ∃ r2, p.reverse = c1 :: r2 := by
    have := List.head?_reverse p
    rw [hl] at this
    cases hq : p.reverse with
    | nil => rw [hq] at this; cases this
    | cons x xs =>
      rw [hq] at this
      injection this with h2
      exact ⟨xs, by rw [h2]⟩
  have h2 : w.reverse.dropWhile isPySpace = w.reverse := by
    refine dropWhile_eq_self_of_head w.reverse c1 r2 ?_ hc1
    rw [removePunct_reverse, hf, hp2]
  unfold pyStrip
  rw [h1, h2, List.reverse_reverse]

theorem backend_entries_ok : Backend.ISL_PHRASES.all entryOk = true := by decide

theorem legacy_entries_ok : Legacy.isl_gif.all entryOk = true := by decide

theorem entryOk_of_mem_backend (p : List Char) (hp : p ∈ Backend.ISL_PHRASES) :
    entryOk p = true :=
  List.all_eq_true.mp backend_entries_ok p hp

theorem entryOk_of_mem_legacy (p : List Char) (hp : p ∈ Legacy.isl_gif) :
    entryOk p = true :=
  List.all_eq_true.mp legacy_entries_ok p hp

theorem entryOk_head (p : List Char) (h : entryOk p = true) :
    ∃ c0, p.head? = some c0 ∧ isPySpace c0 = false := by
  unfold entryOk at h
  simp only [Bool.and_eq_true] at h
  have hh := h.1.1.1
  cases hq : p.head? with
  | none => rw [hq] at hh; exact absurd hh (by simp)
  | some c =>
    rw [hq] at hh
    exact ⟨c, rfl, by simpa using hh⟩

theorem entryOk_last (p : List Char) (h : entryOk p = true) :
    ∃ c1, p.getLast? = some c1 ∧ isPySpace c1 = false := by
  unfold entryOk at h
  simp only [Bool.and_eq_true] at h
  have hl := h.1.1.2
  cases hq : p.getLast? with
  | none => rw [hq] at hl; exact absurd hl (by simp)
  | some c =>
    rw [hq] at hl
    exact ⟨c, rfl, by simpa using hl⟩

theorem entryOk_noPunct (p : List Char) (h : entryOk p = true) :
    removePunct p = p := by
  unfold entryOk at h
  simp only [Bool.and_eq_true] at h
  exact List.filter_eq_self.mpr (List.all_eq_true.mp h.1.2)

theorem entryOk_hasLetter (p : List Char) (h : entryOk p = true) :
    p.filter (fun c => Backend.AVAILABLE_LETTERS.contains c) ≠ [] := by
  unfold entryOk at h
  simp only [Bool.and_eq_true] at h
  obtain ⟨x, hx, hpx⟩ := List.any_eq_true.mp h.2
  exact List.ne_nil_of_mem (List.mem_filter.mpr ⟨hx, hpx⟩)

theorem entryOk_ne_nil (p : List Char) (h : entryOk p = true) : p ≠ [] := by
  obtain ⟨c0, hh, _⟩ := entryOk_head p h
  intro he
  rw [he] at hh
  simp at hh

theorem filterMap_letters (letters : List Char) (s : List Char) :
    (s.filterMap fun c => if letters.contains c then some (letterSrc c) else none) =
      (s.filter fun c => letters.contains c).map letterSrc := by
  induction s with
  | nil => rfl
  | cons a t ih =>
    rw [List.filterMap_cons, List.filter_cons]
    by_cases h : letters.contains a = true
    · rw [if_pos h, if_pos h, List.map_cons, ih]
    · rw [if_neg h, if_neg h, ih]

theorem backend_spellOut_eq (s : List Char) :
    Backend.spellOut s =
      (s.filter fun c => Backend.AVAILABLE_LETTERS.contains c).map letterSrc :=
  filterMap_letters Backend.AVAILABLE_LETTERS s

theorem legacy_spellOut_eq (s : List Char) :
    Legacy.spellOut s = (s.filter fun c => Legacy.arr.contains c).map letterSrc :=
  filterMap_letters Legacy.arr s

theorem backend_process_gif (s : List Char)
    (h : Backend.normalize s ∈ Backend.ISL_PHRASES) :
    Backend.process_text s =
      .gif (gifSrc (Backend.normalize s)) (Backend.normalize s) := by
  have hne : Backend.normalize s ≠ [] :=
    entryOk_ne_nil _ (entryOk_of_mem_backend _ h)
  unfold Backend.process_text
  rw [if_neg hne, if_pos h]

theorem backend_process_seq (s : List Char)
    (h1 : Backend.normalize s ∉ Backend.ISL_PHRASES)
    (h2 : (Backend.normalize s).filter (fun c => Backend.AVAILABLE_LETTERS.contains c) ≠ []) :
    Backend.process_text s =
      .seq (((Backend.normalize s).filter fun c => Backend.AVAILABLE_LETTERS.contains c).map letterSrc)
        (Backend.normalize s) := by
  have hne : Backend.normalize s ≠ [] := by
    obtain ⟨x, hx⟩ := List.exists_mem_of_ne_nil _ h2
    exact List.ne_nil_of_mem (List.mem_filter.mp hx).1
  have himg : Backend.spellOut (Backend.normalize s) ≠ [] := by
    rw [backend_spellOut_eq]
    simpa [List.map_eq_nil_iff] using h2
  unfold Backend.process_text
  rw [if_neg hne, if_neg h1, if_neg himg, backend_spellOut_eq]

theorem backend_process_error_empty (s : List Char) (h : Backend.normalize s = []) :
    Backend.process_text s =
      .error 400 "Text cannot be empty after processing".toList := by
  unfold Backend.process_text
  rw [if_pos h]

theorem backend_process_error_noletters (s : List Char)
    (h1 : Backend.normalize s ≠ [])
    (h2 : (Backend.normalize s).filter (fun c => Backend.AVAILABLE_LETTERS.contains c) = []) :
    Backend.process_text s =
      .error 400 "No valid characters found to convert".toList := by
  have hnm : Backend.normalize s ∉ Backend.ISL_PHRASES := by
    intro hm
    exact entryOk_hasLetter _ (entryOk_of_mem_backend _ hm) h2
  have himg : Backend.spellOut (Backend.normalize s) = [] := by
    rw [backend_spellOut_eq, h2]
    rfl
  unfold Backend.process_text
  rw [if_neg h1, if_neg hnm, if_pos himg]

theorem legacy_process_gif (s : List Char) (h : Legacy.normalize s ∈ Legacy.isl_gif) :
    Legacy.process_text s =
      .gif (gifSrc (Legacy.normalize s)) (Legacy.normalize s) := by
  unfold Legacy.process_text
  rw [if_pos h]

theorem legacy_process_seq (s : List Char) (h : Legacy.normalize s ∉ Legacy.isl_gif) :
    Legacy.process_text s =
      .seq (((Legacy.normalize s).filter fun c => Legacy.arr.contains c).map letterSrc)
        (Legacy.normalize s) := by
  unfold Legacy.process_text
  rw [if_neg h, legacy_spellOut_eq]

theorem legacy_process_not_error (s : List Char) :
    (Legacy.process_text s).isError = false := by
  by_cases h : Legacy.normalize s ∈ Legacy.isl_gif
  · rw [legacy_process_gif s h]; rfl
  · rw [legacy_process_seq s h]; rfl

theorem backend_gif_alt (s src alt : List Char)
    (h : Backend.process_text s = .gif src alt) : alt = Backend.normalize s := by
  unfold Backend.process_text at h
  by_cases h1 : Backend.normalize s = []
  · rw [if_pos h1] at h; cases h
  · rw [if_neg h1] at h
    by_cases h2 : Backend.normalize s ∈ Backend.ISL_PHRASES
    · rw [if_pos h2] at h
      injection h with _ h3
      exact h3.symm
    · rw [if_neg h2] at h
      by_cases h3 : Backend.spellOut (Backend.normalize s) = []
      · rw [if_pos h3] at h; cases h
      · rw [if_neg h3] at h; cases h

theorem legacy_gif_alt (s src alt : List Char)
    (h : Legacy.process_text s = .gif src alt) : alt = Legacy.normalize s := by
  unfold Legacy.process_text at h
  by_cases h1 : Legacy.normalize s ∈ Legacy.isl_gif
  · rw [if_pos h1] at h
    injection h with _ h2
    exact h2.symm
  · rw [if_neg h1] at h; cases h

theorem backend_normalize_of_cip (s p : List Char)
    (hp : entryOk p = true)
    (hcip : removePunct (pyLower s) = p) :
    Backend.normalize s = p := by
  obtain ⟨c0, hh, hc0⟩ := entryOk_head p hp
  obtain ⟨c1, hl, hc1⟩ := entryOk_last p hp
  have hstrip : pyStrip (pyLower s) = pyLower s :=
    pyStrip_eq_self (pyLower s) c0 c1 p hcip hh hl hc0 hc1
  unfold Backend.normalize
  rw [hstrip, hcip]

/-- C1 (amended): for every input equal, case-insensitively and
punctuation-insensitively, to an entry of the phrase table that
contains no uppercase character, `process_text` returns a gif result
whose src is the asset path derived from that phrase and whose alt
text is the phrase itself — in both deployments, each over its own
table.  (The unamended claim fails on the three entries containing
uppercase letters; see the counterexample.) -/
theorem c1_phrase_gif (s p : List Char) :
    (p ∈ Backend.ISL_PHRASES → pyLower p = p →
      removePunct (pyLower s) = removePunct (pyLower p) →
      Backend.process_text s = .gif (gifSrc p) p) ∧
    (p ∈ Legacy.isl_gif → pyLower p = p →
      removePunct (pyLower s) = removePunct (pyLower p) →
      Legacy.process_text s = .gif (gifSrc p) p) := by
  constructor
  · intro hm hlow hcip
    have hok := entryOk_of_mem_backend p hm
    have hrp : removePunct p = p := entryOk_noPunct p hok
    rw [hlow, hrp] at hcip
    have hn : Backend.normalize s = p := backend_normalize_of_cip s p hok hcip
    have hr := backend_process_gif s (by rw [hn]; exact hm)
    rw [hn] at hr
    exact hr
  · intro hm hlow hcip
    have hok := entryOk_of_mem_legacy p hm
    have hrp : removePunct p = p := entryOk_noPunct p hok
    rw [hlow, hrp] at hcip
    have hn : Legacy.normalize s = p := hcip
    have hr := legacy_process_gif s (by rw [hn]; exact hm)
    rw [hn] at hr
    exact hr

/-- C1 witness: the input `Dont Worry!!` is case- and
punctuation-insensitively equal to the lowercase entry `dont worry`,
and both deployments return the corresponding gif. -/
theorem c1_phrase_gif_witness :
    Backend.process_text "Dont Worry!!".toList =
      .gif (gifSrc "dont worry".toList) "dont worry".toList ∧
    Legacy.process_text "Dont Worry!!".toList =
      .gif (gifSrc "dont worry".toList) "dont worry".toList :=
  ⟨(c1_phrase_gif "Dont Worry!!".toList "dont worry".toList).1
      (by decide) (by decide) (by decide),
   (c1_phrase_gif "Dont Worry!!".toList "dont worry".toList).2
      (by decide) (by decide) (by decide)⟩

/-- C1 counterexample: the input `do you watch TV` is (trivially)
case- and punctuation-insensitively equal to the table entry
`do you watch TV`, yet neither deployment returns a gif for it: the
normalizer lowercases the input to `do you watch tv`, which is not a
table member, so the text is spelled out instead. -/
theorem c1_counterexample :
    "do you watch TV".toList ∈ Backend.ISL_PHRASES ∧
    "do you watch TV".toList ∈ Legacy.isl_gif ∧
    (Backend.process_text "do you watch TV".toList).isGif = false ∧
    (Legacy.process_text "do you watch TV".toList).isGif = false := by decide

/-- C2 (confirmed): for every input whose normalized form is not a
phrase-table member but contains at least one a-z character, both
deployments return a sequence result with exactly one letter asset
path per a-z character of the normalized text, in order. -/
theorem c2_spell_out (s : List Char) :
    (Backend.normalize s ∉ Backend.ISL_PHRASES →
      (Backend.normalize s).filter (fun c => Backend.AVAILABLE_LETTERS.contains c) ≠ [] →
      Backend.process_text s =
        .seq (((Backend.normalize s).filter fun c => Backend.AVAILABLE_LETTERS.contains c).map letterSrc)
          (Backend.normalize s)) ∧
    (Legacy.normalize s ∉ Legacy.isl_gif →
      (Legacy.normalize s).filter (fun c => Legacy.arr.contains c) ≠ [] →
      Legacy.process_text s =
        .seq (((Legacy.normalize s).filter fun c => Legacy.arr.contains c).map letterSrc)
          (Legacy.normalize s)) :=
  ⟨fun h1 h2 => backend_process_seq s h1 h2, fun h1 _ => legacy_process_seq s h1⟩

/-- C2 witness: `xyz123` normalizes to itself, matches no phrase, and
is spelled out as the three letter images x, y, z (digits skipped). -/
theorem c2_spell_out_witness :
    Backend.process_text "xyz123".toList =
      .seq (((Backend.normalize "xyz123".toList).filter
        fun c => Backend.AVAILABLE_LETTERS.contains c).map letterSrc)
        (Backend.normalize "xyz123".toList) ∧
    Legacy.process_text "xyz123".toList =
      .seq (((Legacy.normalize "xyz123".toList).filter
        fun c => Legacy.arr.contains c).map letterSrc)
        (Legacy.normalize "xyz123".toList) :=
  ⟨(c2_spell_out "xyz123".toList).1 (by decide) (by decide),
   (c2_spell_out "xyz123".toList).2 (by decide) (by decide)⟩

/-- C3 (amended): in the backend deployment, `process_text` raises an
error iff normalization yields the empty string or no normalized
character maps to a letter asset, and every such error carries status
400 (a client error); the legacy deployment never raises an error
(it returns an empty sequence instead). -/
theorem c3_error_conditions (s : List Char) :
    ((Backend.process_text s).isError = true ↔
      (Backend.normalize s = [] ∨
        (Backend.normalize s).filter (fun c => Backend.AVAILABLE_LETTERS.contains c) = [])) ∧
    (∀ st d, Backend.process_text s = .error st d → st = 400) ∧
    (Legacy.process_text s).isError = false := by
  refine ⟨?_, ?_, legacy_process_not_error s⟩
  · by_cases h1 : Backend.normalize s = []
    · rw [backend_process_error_empty s h1]
      exact iff_of_true rfl (Or.inl h1)
    · by_cases h2 : (Backend.normalize s).filter (fun c => Backend.AVAILABLE_LETTERS.contains c) = []
      · rw [backend_process_error_noletters s h1 h2]
        exact iff_of_true rfl (Or.inr h2)
      · have hr : ¬(Backend.normalize s = [] ∨
            (Backend.normalize s).filter (fun c => Backend.AVAILABLE_LETTERS.contains c) = []) := by
          rintro (h | h)
          · exact h1 h
          · exact h2 h
        by_cases h3 : Backend.normalize s ∈ Backend.ISL_PHRASES
        · rw [backend_process_gif s h3]
          exact iff_of_false (by simp [Result.isError]) hr
        · rw [backend_process_seq s h3 h2]
          exact iff_of_false (by simp [Result.isError]) hr
  · intro st d hd
    by_cases h1 : Backend.normalize s = []
    · rw [backend_process_error_empty s h1] at hd
      injection hd with h4 _
      exact h4.symm
    · by_cases h2 : (Backend.normalize s).filter (fun c => Backend.AVAILABLE_LETTERS.contains c) = []
      · rw [backend_process_error_noletters s h1 h2] at hd
        injection hd with h4 _
        exact h4.symm
      · by_cases h3 : Backend.normalize s ∈ Backend.ISL_PHRASES
        · rw [backend_process_gif s h3] at hd; cases hd
        · rw [backend_process_seq s h3 h2] at hd; cases hd

/-- C3 witness: on the all-punctuation input `!!!` the backend raises
an error and the legacy deployment does not. -/
theorem c3_error_conditions_witness :
    (Backend.process_text "!!!".toList).isError = true ∧
    (Legacy.process_text "!!!".toList).isError = false :=
  ⟨(c3_error_conditions "!!!".toList).1.mpr (Or.inl (by decide)),
   (c3_error_conditions "!!!".toList).2.2⟩

/-- C3 counterexample: the legacy deployment's `process_text` returns a
(successful) empty sequence for the all-punctuation input `!!!`, not
an invalid-input error as the claim requires of every deployment. -/
theorem c3_counterexample :
    Legacy.process_text "!!!".toList = .seq [] [] ∧
    (Legacy.process_text "!!!".toList).isError = false := by decide

/-- C4 (confirmed): whenever the normalized input is a phrase-table
member, `process_text` returns the gif result for it — never a
sequence — in both deployments. -/
theorem c4_exact_match_priority (s : List Char) :
    (Backend.normalize s ∈ Backend.ISL_PHRASES →
      Backend.process_text s =
        .gif (gifSrc (Backend.normalize s)) (Backend.normalize s)) ∧
    (Legacy.normalize s ∈ Legacy.isl_gif →
      Legacy.process_text s =
        .gif (gifSrc (Legacy.normalize s)) (Legacy.normalize s)) :=
  ⟨backend_process_gif s, legacy_process_gif s⟩

/-- C4 witness: `Hello.` normalizes to the phrase `hello`, whose every
character is individually renderable, and both deployments still
return the gif. -/
theorem c4_exact_match_priority_witness :
    Backend.process_text "Hello.".toList =
      .gif (gifSrc (Backend.normalize "Hello.".toList))
        (Backend.normalize "Hello.".toList) ∧
    Legacy.process_text "Hello.".toList =
      .gif (gifSrc (Legacy.normalize "Hello.".toList))
        (Legacy.normalize "Hello.".toList) :=
  ⟨(c4_exact_match_priority "Hello.".toList).1 (by decide),
   (c4_exact_match_priority "Hello.".toList).2 (by decide)⟩

/-- C5 (amended): the legacy deployment's normalization (lowercase,
then remove punctuation) is idempotent.  The backend's normalization
is not, because it trims whitespace BEFORE removing punctuation, so
removing punctuation can expose surrounding whitespace; see the
counterexample. -/
theorem c5_legacy_normalize_idempotent (s : List Char) :
    Legacy.normalize (Legacy.normalize s) = Legacy.normalize s := by
  unfold Legacy.normalize
  have h1 : pyLower (removePunct (pyLower s)) = removePunct (pyLower s) := by
    unfold removePunct pyLower
    refine (List.map_congr_left ?_).trans (List.map_id _)
    intro a ha
    have hmem := (List.mem_filter.mp ha).1
    obtain ⟨x, _, rfl⟩ := List.mem_map.mp hmem
    exact toLowerAscii_idem x
  rw [h1]
  unfold removePunct
  rw [List.filter_filter]
  simp

/-- C5 counterexample: the backend normalization is not idempotent:
`a .` normalizes to `a ` (the strip runs before the dot is removed,
exposing a trailing space), and normalizing again yields `a`. -/
theorem c5_counterexample :
    Backend.normalize "a .".toList = "a ".toList ∧
    Backend.normalize (Backend.normalize "a .".toList) = "a".toList ∧
    Backend.normalize (Backend.normalize "a .".toList) ≠
      Backend.normalize "a .".toList := by decide

/-- C6 (amended): every sequence result successfully returned by the
backend `process_text` carries a non-empty asset list (an empty list
is signalled as an error instead); the legacy deployment violates
this, see the counterexample.  Exclusivity of the result kinds is
inherent in the `Result` union. -/
theorem c6_seq_nonempty (s : List Char) (data : List (List Char)) (orig : List Char)
    (h : Backend.process_text s = .seq data orig) : data ≠ [] := by
  unfold Backend.process_text at h
  by_cases h1 : Backend.normalize s = []
  · rw [if_pos h1] at h; cases h
  · rw [if_neg h1] at h
    by_cases h2 : Backend.normalize s ∈ Backend.ISL_PHRASES
    · rw [if_pos h2] at h; cases h
    · rw [if_neg h2] at h
      by_cases h3 : Backend.spellOut (Backend.normalize s) = []
      · rw [if_pos h3] at h; cases h
      · rw [if_neg h3] at h
        injection h with h4 _
        rw [← h4]
        exact h3

/-- C6 witness: the sequence the backend returns for `abc` has a
non-empty asset list. -/
theorem c6_seq_nonempty_witness :
    [letterSrc 'a', letterSrc 'b', letterSrc 'c'] ≠ ([] : List (List Char)) :=
  c6_seq_nonempty "abc".toList [letterSrc 'a', letterSrc 'b', letterSrc 'c']
    "abc".toList (by decide)

/-- C6 counterexample: the legacy deployment returns a sequence result
with an EMPTY asset list for the digits-only input `123`, violating
the non-emptiness invariant the claim states for successful sequence
results. -/
theorem c6_counterexample :
    Legacy.process_text "123".toList = .seq [] "123".toList := by decide

/-- C7 (amended): the backend deployment rejects, with a validation
error and before normalization or lookup, every request whose text
length lies outside 1..500; the legacy deployment declares no length
constraint and accepts any length, see the counterexample. -/
theorem c7_backend_length_validation (s : List Char)
    (h : s.length < 1 ∨ 500 < s.length) :
    Backend.endpoint s = .error 422 "value error for field text".toList := by
  unfold Backend.endpoint
  rw [if_neg (show ¬(1 ≤ s.length ∧ s.length ≤ 500) by omega)]

/-- C7 witness: the empty request (length 0) is rejected by the
backend endpoint with a validation error. -/
theorem c7_backend_length_validation_witness :
    Backend.endpoint [] = .error 422 "value error for field text".toList :=
  c7_backend_length_validation [] (Or.inl (by decide))

/-- C7 counterexample: the legacy endpoint does not reject requests
whose length is outside 1..500: the empty text (length 0) flows
through to the handler and produces an (empty) sequence response. -/
theorem c7_counterexample :
    "".toList.length = 0 ∧ Legacy.endpoint "".toList = .seq [] [] := by decide

/-- C8 (confirmed): the two deployments' conversion functions are not
extensionally equal: on the input `hi` the backend returns a gif (its
table contains `hi`) while the legacy deployment spells it out (its
table does not). -/
theorem c8_deployments_diverge :
    Backend.process_text "hi".toList ≠ Legacy.process_text "hi".toList := by decide

/-- C9 (confirmed): no gif result of either deployment ever carries as
its alt text one of the three phrase-table entries containing
uppercase letters — those entries are unreachable, because the
normalizer lowercases the input before the exact-match lookup. -/
theorem c9_uppercase_phrases_unreachable (s src alt : List Char)
    (h : Backend.process_text s = .gif src alt ∨
      Legacy.process_text s = .gif src alt) :
    alt ≠ "do you watch TV".toList ∧ alt ≠ "shall I help you".toList ∧
      alt ≠ "wait I am thinking".toList := by
  have hnu : ∀ c ∈ alt, ¬(65 ≤ c.toNat ∧ c.toNat ≤ 90) := by
    cases h with
    | inl hb =>
      have ha := backend_gif_alt s src alt hb
      intro c hc
      rw [ha] at hc
      unfold Backend.normalize removePunct at hc
      exact mem_pyLower_not_upper s c (mem_pyStrip _ c (List.mem_filter.mp hc).1)
    | inr hl =>
      have ha := legacy_gif_alt s src alt hl
      intro c hc
      rw [ha] at hc
      unfold Legacy.normalize removePunct at hc
      exact mem_pyLower_not_upper s c (List.mem_filter.mp hc).1
  refine ⟨?_, ?_, ?_⟩ <;> intro he
  · exact hnu 'T' (by rw [he]; decide) (by decide)
  · exact hnu 'I' (by rw [he]; decide) (by decide)
  · exact hnu 'I' (by rw [he]; decide) (by decide)

/-- C9 witness: the gif the backend returns for `hello` has an alt
text distinct from each of the three uppercase table entries. -/
theorem c9_uppercase_phrases_unreachable_witness :
    "hello".toList ≠ "do you watch TV".toList ∧
    "hello".toList ≠ "shall I help you".toList ∧
    "hello".toList ≠ "wait I am thinking".toList :=
  c9_uppercase_phrases_unreachable "hello".toList
    "/static/gifs/hello.gif".toList "hello".toList (Or.inl (by decide))

/-- C10 (confirmed): both conversion functions are deterministic —
equal input texts produce equal results.  In this model both are pure
functions of the input and the two fixed tables, with no other
state. -/
theorem c10_deterministic (s t : List Char) (h : s = t) :
    Backend.process_text s = Backend.process_text t ∧
      Legacy.process_text s = Legacy.process_text t := by
  subst h
  exact ⟨rfl, rfl⟩

/-- C10 witness: determinism instantiated at the input `hi`. -/
theorem c10_deterministic_witness :
    Backend.process_text "hi".toList = Backend.process_text "hi".toList ∧
      Legacy.process_text "hi".toList = Legacy.process_text "hi".toList :=
  c10_deterministic "hi".toList "hi".toList rfl
